import Mathlib

/-!
Shallow embedding of the Aquamarine BLE scanner core:
`src/device.py` (entity model) and `src/scanner.py` (session state machine,
command issuance, watchdog).  Devices, services and characteristics are
modelled as immutable records; Python's in-place mutation through aliased
objects is rendered as functional update at a list index.  Each event
handler / public operation returns the new scanner state together with the
list of radio-module commands it issued, in issue order.
-/

set_option maxHeartbeats 1000000
set_option linter.unnecessarySeqFocus false

/-- Python `str.upper()` on ASCII data. -/
def strUpper (s : String) : String := String.mk (s.data.map Char.toUpper)

/-- Lower-case hex digit for a value below 16. -/
def hexDigitLower (n : Nat) : Char :=
  if n < 10 then Char.ofNat (48 + n) else Char.ofNat (87 + n)

/-- Upper-case hex digit for a value below 16. -/
def hexDigitUpper (n : Nat) : Char :=
  if n < 10 then Char.ofNat (48 + n) else Char.ofNat (55 + n)

def byteToHexLower (b : Nat) : List Char := [hexDigitLower (b / 16 % 16), hexDigitLower (b % 16)]

def byteToHexUpper (b : Nat) : List Char := [hexDigitUpper (b / 16 % 16), hexDigitUpper (b % 16)]

/-- Python `bytes.hex()`: lower-case hex rendering of a byte sequence. -/
def bytesToHexLower (bs : List Nat) : String := String.mk (bs.map byteToHexLower).flatten

/-- Python `bytes.hex().upper()`: upper-case hex rendering of a byte sequence. -/
def bytesToHexUpper (bs : List Nat) : String := String.mk (bs.map byteToHexUpper).flatten

/-- Numeric value of a single hex digit character, if any. -/
def hexDigitVal (c : Char) : Option Nat :=
  if 48 ≤ c.toNat ∧ c.toNat ≤ 57 then some (c.toNat - 48)
  else if 97 ≤ c.toNat ∧ c.toNat ≤ 102 then some (c.toNat - 87)
  else if 65 ≤ c.toNat ∧ c.toNat ≤ 70 then some (c.toNat - 55)
  else none

/-- Python `bytes.fromhex` on a plain hex string; `none` models the `ValueError`
raised on odd length or non-hex characters. -/
def hexPairsToBytes : List Char → Option (List Nat)
  | [] => some []
  | [_] => none
  | c1 :: c2 :: rest =>
    match hexDigitVal c1, hexDigitVal c2, hexPairsToBytes rest with
    | some hi, some lo, some bs => some ((16 * hi + lo) :: bs)
    | _, _, _ => none

def hexToBytes (s : String) : Option (List Nat) := hexPairsToBytes s.data

/-- `device.py` `CharacteristicState`: whether a characteristic is currently
being used for a GATT command. -/
inductive CharacteristicState where
  | NONE
  | READING
  | WRITING
  | SUBSCRIBING_NOTIFICATION
  | SUBSCRIBING_INDICATION
deriving DecidableEq

/-- `device.py` `Characteristic`; `state` and `packet` take the constructor
defaults of `Characteristic.__init__`. -/
structure Characteristic where
  uuid : String
  handle : Nat
  properties : Nat
  state : CharacteristicState := CharacteristicState.NONE
  packet : String := ""
deriving DecidableEq

/-- `device.py` `ServiceState`: discovery state of a service. -/
inductive ServiceState where
  | DISCOVERING
  | DISCOVERED
deriving DecidableEq

/-- `device.py` `Service`; defaults follow `Service.__init__`. -/
structure Service where
  uuid : String
  handle : Nat
  state : ServiceState := ServiceState.DISCOVERING
  characteristics : List Characteristic := []
deriving DecidableEq

/-- `device.py` `Device`; defaults follow `Device.__init__`. -/
structure Device where
  address : String
  handle : Option Nat := none
  packet : String := ""
  is_connectable : Bool := false
  address_type : Option Nat := none
  rssi : Option Int := none
  is_connected : Bool := false
  services : List Service := []
deriving DecidableEq

/-- `Device.on_advertisement`: overwrite the transient advertisement fields. -/
def Device.on_advertisement (d : Device) (packet : String) (event_flags : Nat)
    (address_type : Nat) (rssi : Int) : Device :=
  { d with
    packet := packet
    is_connectable := (event_flags &&& 1) != 0
    address_type := some address_type
    rssi := some rssi }

/-- First characteristic with the given handle in a characteristic list
(linear scan, as in the Python lookups). -/
def charsFindByHandle : List Characteristic → Nat → Option Characteristic
  | [], _ => none
  | c :: rest, h => if c.handle == h then some c else charsFindByHandle rest h

/-- Scan of `Device.get_characteristic_by_handle` over the service list. -/
def servicesFindCharByHandle : List Service → Nat → Option Characteristic
  | [], _ => none
  | sv :: rest, h =>
    match charsFindByHandle sv.characteristics h with
    | some c => some c
    | none => servicesFindCharByHandle rest h

/-- `Device.get_characteristic_by_handle`: first match scanning services in
order and each service's characteristics in order. -/
def Device.get_characteristic_by_handle (d : Device) (h : Nat) : Option Characteristic :=
  servicesFindCharByHandle d.services h

/-- `Device.is_using_gatt_command`: some service not yet Discovered, or some
characteristic with a non-Idle command state. -/
def Device.is_using_gatt_command (d : Device) : Bool :=
  d.services.any (fun sv => sv.state != ServiceState.DISCOVERED) ||
  d.services.any (fun sv => sv.characteristics.any
    (fun c => c.state != CharacteristicState.NONE))

/-- `scanner.py` `MAX_RETRY_ATTEMPTS`. -/
def MAX_RETRY_ATTEMPTS : Nat := 3

/-- BGAPI `sl_bt_gatt_att_opcode_t` value for handle-value indications. -/
def ATT_OPCODE_HANDLE_VALUE_INDICATION : Nat := 29

/-- BGAPI PHY constant passed by `connect_device`. -/
def PHY_PHY_1M : Nat := 1

/-- Commands issued to the radio module, with the arguments the code passes. -/
inductive Command where
  | scannerStart
  | connectionOpen (address : String) (address_type : Option Nat) (phy : Nat)
  | connectionClose (handle : Nat)
  | discoverPrimaryServices (connection : Nat)
  | discoverCharacteristics (connection : Option Nat) (service : Nat)
  | readCharacteristicValue (connection : Option Nat) (characteristic : Nat)
  | writeCharacteristicValue (connection : Option Nat) (characteristic : Nat) (value : List Nat)
  | setCharacteristicNotification (connection : Option Nat) (characteristic : Nat) (mode : Nat)
  | sendCharacteristicConfirmation (connection : Nat)
  | systemReboot
deriving DecidableEq

/-- Decoded radio-module events dispatched by `ScannerApp.run`. -/
inductive Event where
  | advertisement (address : String) (data : List Nat) (event_flags : Nat)
      (address_type : Nat) (rssi : Int)
  | boot
  | connection_opened (address : String) (connection : Nat)
  | connection_closed (connection : Nat)
  | gatt_service (connection : Nat) (uuid : List Nat) (service : Nat)
  | gatt_characteristic (connection : Nat) (uuid : List Nat) (characteristic : Nat)
      (properties : Nat)
  | gatt_characteristic_value (connection : Nat) (characteristic : Nat)
      (att_opcode : Nat) (value : List Nat)
  | gatt_procedure_completed (connection : Nat)
deriving DecidableEq

def Event.is_boot : Event → Bool
  | Event.boot => true
  | _ => false

/-- Mutable state of `ScannerApp` relevant to the event state machine. -/
structure Scanner where
  devices : List Device
  is_ready : Bool
deriving DecidableEq

/-- State of `ScannerApp` right after `__init__`. -/
def initialScanner : Scanner := { devices := [], is_ready := false }

/-- Index of the first list element satisfying a predicate (the Python
handlers resolve a device by a linear first-match scan). -/
def find_idx {α : Type} (p : α → Bool) : List α → Option Nat
  | [] => none
  | x :: rest => if p x then some 0 else (find_idx p rest).map (fun n => n + 1)

/-- `ScannerApp.get_device_by_address`, as the index of the resolved device. -/
def get_device_idx_by_address (devices : List Device) (address : String) : Option Nat :=
  find_idx (fun d => d.address == address) devices

/-- `ScannerApp.get_device_by_handle`, as the index of the resolved device. -/
def get_device_idx_by_handle (devices : List Device) (conn : Nat) : Option Nat :=
  find_idx (fun d => d.handle == some conn) devices

namespace ScannerApp

/-- `ScannerApp.on_advertisement`: resolve-or-create by upper-cased address,
then overwrite the advertisement fields. -/
def on_advertisement (s : Scanner) (address : String) (data : List Nat)
    (event_flags : Nat) (address_type : Nat) (rssi : Int) : Scanner × List Command :=
  let addr := strUpper address
  let packet := bytesToHexUpper data
  match get_device_idx_by_address s.devices addr with
  | some i =>
    match s.devices[i]? with
    | some d =>
      ({ s with devices := s.devices.set i (d.on_advertisement packet event_flags address_type rssi) }, [])
    | none => (s, [])
  | none =>
    ({ s with devices :=
        s.devices ++ [({ address := addr } : Device).on_advertisement packet event_flags address_type rssi] }, [])

/-- `ScannerApp.on_boot`: mark ready and start scanning. -/
def on_boot (s : Scanner) : Scanner × List Command :=
  ({ s with is_ready := true }, [Command.scannerStart])

/-- `ScannerApp.on_connection_opened`: resolve by address, set the connected
flag and kick off primary service discovery.  The service list is left as is. -/
def on_connection_opened (s : Scanner) (address : String) (connection : Nat) :
    Scanner × List Command :=
  match get_device_idx_by_address s.devices (strUpper address) with
  | some i =>
    match s.devices[i]? with
    | some d =>
      ({ s with devices := s.devices.set i ({ d with is_connected := true }) },
       [Command.discoverPrimaryServices connection])
    | none => (s, [])
  | none => (s, [])

/-- `ScannerApp.on_connection_closed`: resolve by handle, clear the connected
flag and the handle. -/
def on_connection_closed (s : Scanner) (connection : Nat) : Scanner × List Command :=
  match get_device_idx_by_handle s.devices connection with
  | some i =>
    match s.devices[i]? with
    | some d =>
      ({ s with devices := s.devices.set i ({ d with is_connected := false, handle := none }) }, [])
    | none => (s, [])
  | none => (s, [])

/-- Update the packet of the first characteristic with the given handle in a
characteristic list; `none` when no characteristic matches. -/
def charsSetPacketByHandle : List Characteristic → Nat → String → Option (List Characteristic)
  | [], _, _ => none
  | c :: rest, h, p =>
    if c.handle == h then some ({ c with packet := p } :: rest)
    else (charsSetPacketByHandle rest h p).map (fun cs => c :: cs)

/-- Update the packet of the first characteristic with the given handle,
scanning services in order; identity when no characteristic matches. -/
def servicesSetPacketByHandle : List Service → Nat → String → List Service
  | [], _, _ => []
  | sv :: rest, h, p =>
    match charsSetPacketByHandle sv.characteristics h p with
    | some cs => { sv with characteristics := cs } :: rest
    | none => sv :: servicesSetPacketByHandle rest h p

/-- `ScannerApp.on_characteristic_value`: confirm indications first (before and
independently of any entity lookup), then store the delivered payload on the
first characteristic with the matching handle.  Command state is untouched. -/
def on_characteristic_value (s : Scanner) (connection characteristic att_opcode : Nat)
    (value : List Nat) : Scanner × List Command :=
  let cmds := if att_opcode == ATT_OPCODE_HANDLE_VALUE_INDICATION
    then [Command.sendCharacteristicConfirmation connection] else []
  match get_device_idx_by_handle s.devices connection with
  | some i =>
    match s.devices[i]? with
    | some d =>
      let d' : Device :=
        { d with services := servicesSetPacketByHandle d.services characteristic (bytesToHexLower value) }
      ({ s with devices := s.devices.set i d' }, cmds)
    | none => (s, cmds)
  | none => (s, cmds)

/-- `ScannerApp.on_service`: append a new Service built from the byte-reversed
upper-case UUID and the event's service handle. -/
def on_service (s : Scanner) (connection : Nat) (uuid : List Nat) (service : Nat) :
    Scanner × List Command :=
  match get_device_idx_by_handle s.devices connection with
  | some i =>
    match s.devices[i]? with
    | some d =>
      let d' : Device :=
        { d with services := d.services ++ [{ uuid := bytesToHexUpper uuid.reverse, handle := service }] }
      ({ s with devices := s.devices.set i d' }, [])
    | none => (s, [])
  | none => (s, [])

/-- Append a characteristic to the first service in Discovering state;
identity when no service is Discovering (the event is dropped). -/
def appendToDiscovering : List Service → Characteristic → List Service
  | [], _ => []
  | sv :: rest, c =>
    if sv.state == ServiceState.DISCOVERING
    then { sv with characteristics := sv.characteristics ++ [c] } :: rest
    else sv :: appendToDiscovering rest c

/-- `ScannerApp.on_characteristic`. -/
def on_characteristic (s : Scanner) (connection : Nat) (uuid : List Nat)
    (characteristic : Nat) (properties : Nat) : Scanner × List Command :=
  match get_device_idx_by_handle s.devices connection with
  | some i =>
    match s.devices[i]? with
    | some d =>
      let c : Characteristic :=
        { uuid := bytesToHexUpper uuid.reverse, handle := characteristic, properties := properties }
      let d' : Device := { d with services := appendToDiscovering d.services c }
      ({ s with devices := s.devices.set i d' }, [])
    | none => (s, [])
  | none => (s, [])

/-- Reset the first characteristic with a non-Idle command state; `none` when
every characteristic is Idle. -/
def resetFirstNonIdle : List Characteristic → Option (List Characteristic)
  | [] => none
  | c :: rest =>
    if c.state != CharacteristicState.NONE
    then some ({ c with state := CharacteristicState.NONE } :: rest)
    else (resetFirstNonIdle rest).map (fun cs => c :: cs)

/-- The nested helper of `ScannerApp.on_procedure_completed`: walk the services
in order; a service not yet Discovered is marked Discovered and the walk stops;
otherwise the service's characteristics are scanned and the first with a
non-Idle command state is reset, stopping the walk; only then does the walk
move on to the next service. -/
def update_services_and_characteristics : List Service → List Service
  | [] => []
  | sv :: rest =>
    if sv.state != ServiceState.DISCOVERED
    then { sv with state := ServiceState.DISCOVERED } :: rest
    else
      match resetFirstNonIdle sv.characteristics with
      | some cs => { sv with characteristics := cs } :: rest
      | none => sv :: update_services_and_characteristics rest

/-- `ScannerApp.on_procedure_completed`: advance one pending marker, then issue
characteristic discovery for the first service still Discovering, if any. -/
def on_procedure_completed (s : Scanner) (connection : Nat) : Scanner × List Command :=
  match get_device_idx_by_handle s.devices connection with
  | some i =>
    match s.devices[i]? with
    | some d =>
      let d' := { d with services := update_services_and_characteristics d.services }
      let cmds := match d'.services.find? (fun sv => sv.state == ServiceState.DISCOVERING) with
        | some sv => [Command.discoverCharacteristics d'.handle sv.handle]
        | none => []
      ({ s with devices := s.devices.set i d' }, cmds)
    | none => (s, [])
  | none => (s, [])

/-- `ScannerApp.connect_device`: refuse when any device in the collection has a
handle assigned but is not yet connected; otherwise open a connection and store
the handle returned by the synchronous response. -/
def connect_device (s : Scanner) (di : Nat) (responseHandle : Nat) : Scanner × List Command :=
  if s.devices.any (fun d => d.handle.isSome && !d.is_connected) then (s, [])
  else
    match s.devices[di]? with
    | some d =>
      ({ s with devices := s.devices.set di ({ d with handle := some responseHandle }) },
       [Command.connectionOpen d.address d.address_type PHY_PHY_1M])
    | none => (s, [])

/-- `ScannerApp.disconnect_device`: issue a close for the device's handle, if
it has one; no state mutation. -/
def disconnect_device (s : Scanner) (di : Nat) : Scanner × List Command :=
  match s.devices[di]? with
  | some d =>
    match d.handle with
    | some h => (s, [Command.connectionClose h])
    | none => (s, [])
  | none => (s, [])

/-- `ScannerApp.read_from_characteristic` on the characteristic at position
`(i, j)` of the device at `di`. -/
def read_from_characteristic (s : Scanner) (di i j : Nat) : Scanner × List Command :=
  match s.devices[di]? with
  | none => (s, [])
  | some d =>
    if d.is_using_gatt_command then (s, [])
    else if d.is_connected then
      match d.services[i]? with
      | none => (s, [])
      | some sv =>
        match sv.characteristics[j]? with
        | none => (s, [])
        | some c =>
          let sv' : Service :=
            { sv with characteristics := sv.characteristics.set j ({ c with state := CharacteristicState.READING }) }
          let d' : Device := { d with services := d.services.set i sv' }
          ({ s with devices := s.devices.set di d' },
           [Command.readCharacteristicValue d.handle c.handle])
    else (s, [])

/-- `ScannerApp.write_to_characteristic`.  The trailing Bool records whether
`bytes.fromhex` raised (in which case nothing is issued or mutated). -/
def write_to_characteristic (s : Scanner) (di i j : Nat) (packet : String) :
    Scanner × List Command × Bool :=
  match s.devices[di]? with
  | none => (s, [], false)
  | some d =>
    if d.is_using_gatt_command then (s, [], false)
    else if d.is_connected then
      match d.services[i]? with
      | none => (s, [], false)
      | some sv =>
        match sv.characteristics[j]? with
        | none => (s, [], false)
        | some c =>
          match hexToBytes packet with
          | none => (s, [], true)
          | some bs =>
            let sv' : Service :=
              { sv with characteristics := sv.characteristics.set j ({ c with state := CharacteristicState.WRITING, packet := packet }) }
            let d' : Device := { d with services := d.services.set i sv' }
            ({ s with devices := s.devices.set di d' },
             [Command.writeCharacteristicValue d.handle c.handle bs], false)
    else (s, [], false)

/-- `ScannerApp.subscribe_to_notification` (mode 1). -/
def subscribe_to_notification (s : Scanner) (di i j : Nat) : Scanner × List Command :=
  match s.devices[di]? with
  | none => (s, [])
  | some d =>
    if d.is_using_gatt_command then (s, [])
    else if d.is_connected then
      match d.services[i]? with
      | none => (s, [])
      | some sv =>
        match sv.characteristics[j]? with
        | none => (s, [])
        | some c =>
          let sv' : Service :=
            { sv with characteristics := sv.characteristics.set j ({ c with state := CharacteristicState.SUBSCRIBING_NOTIFICATION }) }
          let d' : Device := { d with services := d.services.set i sv' }
          ({ s with devices := s.devices.set di d' },
           [Command.setCharacteristicNotification d.handle c.handle 1])
    else (s, [])

/-- `ScannerApp.subscribe_to_indication` (mode 2). -/
def subscribe_to_indication (s : Scanner) (di i j : Nat) : Scanner × List Command :=
  match s.devices[di]? with
  | none => (s, [])
  | some d =>
    if d.is_using_gatt_command then (s, [])
    else if d.is_connected then
      match d.services[i]? with
      | none => (s, [])
      | some sv =>
        match sv.characteristics[j]? with
        | none => (s, [])
        | some c =>
          let sv' : Service :=
            { sv with characteristics := sv.characteristics.set j ({ c with state := CharacteristicState.SUBSCRIBING_INDICATION }) }
          let d' : Device := { d with services := d.services.set i sv' }
          ({ s with devices := s.devices.set di d' },
           [Command.setCharacteristicNotification d.handle c.handle 2])
    else (s, [])

end ScannerApp

/-- Dispatch of `ScannerApp.run`'s match on the event discriminator. -/
def handle_event (s : Scanner) : Event → Scanner × List Command
  | Event.advertisement a d f t r => ScannerApp.on_advertisement s a d f t r
  | Event.boot => ScannerApp.on_boot s
  | Event.connection_opened a c => ScannerApp.on_connection_opened s a c
  | Event.connection_closed c => ScannerApp.on_connection_closed s c
  | Event.gatt_service c u sv => ScannerApp.on_service s c u sv
  | Event.gatt_characteristic c u ch p => ScannerApp.on_characteristic s c u ch p
  | Event.gatt_characteristic_value c ch op v => ScannerApp.on_characteristic_value s c ch op v
  | Event.gatt_procedure_completed c => ScannerApp.on_procedure_completed s c

/-- One iteration of `ScannerApp.run`: events other than Boot are discarded
until the ready flag is set. -/
def run_step (s : Scanner) (e : Event) : Scanner × List Command :=
  if !s.is_ready && !e.is_boot then (s, []) else handle_event s e

/-- `ScannerApp.run` over a finite event sequence, collecting issued commands. -/
def run_loop : Scanner → List Event → Scanner × List Command
  | s, [] => (s, [])
  | s, e :: es =>
    let r := run_step s e
    let r2 := run_loop r.1 es
    (r2.1, r.2 ++ r2.2)

/-- Any single transition of the session: an incoming event processed by the
event loop, or one of the public operations invoked by the presentation layer. -/
inductive Op where
  | event (e : Event)
  | connect (di responseHandle : Nat)
  | disconnect (di : Nat)
  | readChar (di i j : Nat)
  | writeChar (di i j : Nat) (packet : String)
  | subNotify (di i j : Nat)
  | subIndicate (di i j : Nat)

def step (s : Scanner) : Op → Scanner × List Command
  | Op.event e => run_step s e
  | Op.connect di rh => ScannerApp.connect_device s di rh
  | Op.disconnect di => ScannerApp.disconnect_device s di
  | Op.readChar di i j => ScannerApp.read_from_characteristic s di i j
  | Op.writeChar di i j p =>
    let r := ScannerApp.write_to_characteristic s di i j p
    (r.1, r.2.1)
  | Op.subNotify di i j => ScannerApp.subscribe_to_notification s di i j
  | Op.subIndicate di i j => ScannerApp.subscribe_to_indication s di i j

/-- A device holding a connection handle while not yet connected: a connection
attempt in flight. -/
def in_flight (d : Device) : Bool := d.handle.isSome && !d.is_connected

/-- At most one connection attempt in flight across the whole collection. -/
def at_most_one_in_flight (s : Scanner) : Prop :=
  s.devices.countP in_flight ≤ 1

/-- `ScannerApp.watchdog`'s retry loop, with the outcome of each
`is_ready.wait(10)` given by the oracle `waits` (indexed by the retry counter
at reboot time).  Returns the number of reboot commands issued and whether the
session was stopped. -/
def watchdogIter (waits : Nat → Bool) : Nat → Nat → Nat × Bool
  | _, 0 => (0, true)
  | retry, r + 1 =>
    if waits retry then (1, false)
    else
      let p := watchdogIter waits (retry + 1) r
      (p.1 + 1, p.2)

/-- `ScannerApp.watchdog`: `graceReady` is the outcome of the initial
`is_ready.wait(1)`. -/
def watchdog (graceReady : Bool) (waits : Nat → Bool) : Nat × Bool :=
  if graceReady then (0, false) else watchdogIter waits 0 MAX_RETRY_ATTEMPTS

/-- A service with nothing pending: Discovered, all characteristics Idle. -/
def Service.isSettled (sv : Service) : Bool :=
  sv.state == ServiceState.DISCOVERED &&
  sv.characteristics.all (fun c => c.state == CharacteristicState.NONE)

/-- Advancing one service's pending marker: mark it Discovered if it is not,
otherwise reset its first non-Idle characteristic. -/
def advanceService (sv : Service) : Service :=
  if sv.state != ServiceState.DISCOVERED then { sv with state := ServiceState.DISCOVERED }
  else { sv with characteristics := (ScannerApp.resetFirstNonIdle sv.characteristics).getD sv.characteristics }

/-- Modelled from the amended wording of the completion-event rule: scan the
services and their characteristics interleaved, in insertion order, and
advance the first pending marker found (a not-yet-Discovered service, or a
non-Idle characteristic of an already Discovered service), then stop. -/
def advanceFirstPending : List Service → List Service
  | [] => []
  | sv :: rest =>
    if sv.isSettled then sv :: advanceFirstPending rest
    else advanceService sv :: rest

/-- The characteristic at position `(i, j)` of the device at `di`, if any. -/
def getChar (s : Scanner) (di i j : Nat) : Option Characteristic :=
  match s.devices[di]? with
  | none => none
  | some d =>
    match d.services[i]? with
    | none => none
    | some sv => sv.characteristics[j]?

/-- Command states of a characteristic list, positionally. -/
def chStates (cs : List Characteristic) : List CharacteristicState :=
  cs.map (fun c => c.state)

/-- Command states across a service list, positionally. -/
def svStates (svs : List Service) : List (List CharacteristicState) :=
  svs.map (fun sv => chStates sv.characteristics)

/-- Command states of a device's characteristics, positionally. -/
def devStates (d : Device) : List (List CharacteristicState) :=
  svStates d.services

/-- The command state of every characteristic in the collection, positionally. -/
def statesOf (s : Scanner) : List (List (List CharacteristicState)) :=
  s.devices.map devStates

/-- Number of devices in the collection carrying the given address. -/
def countAddr (devices : List Device) (a : String) : Nat :=
  devices.countP (fun d => d.address == a)

/-- Sample fixtures used to instantiate the theorems below. -/
def wChar : Characteristic := { uuid := "2A00", handle := 3, properties := 10 }

def wService : Service :=
  { uuid := "1800", handle := 1, state := ServiceState.DISCOVERED, characteristics := [wChar] }

def wDevice : Device :=
  { address := "AA:BB:CC:DD:EE:FF", handle := some 1, is_connected := true, services := [wService] }

def wScanner : Scanner := { devices := [wDevice], is_ready := true }

/-- A device with a connection attempt in flight: handle assigned, not connected. -/
def sampleInFlight : Device := { address := "11:22:33:44:55:66", handle := some 3 }

def sampleScannerA : Scanner := { devices := [sampleInFlight], is_ready := true }

/-! ### Generic list lemmas used throughout -/

theorem getq_set_self {α : Type} :
    ∀ (l : List α) (i : Nat) (x y : α), l[i]? = some y → (l.set i x)[i]? = some x := by
  intro l
  induction l with
  | nil => intro i x y h; simp at h
  | cons a t ih =>
    intro i x y h
    cases i with
    | zero => simp
    | succ k =>
      simp only [List.getElem?_cons_succ] at h
      simp only [List.set_cons_succ, List.getElem?_cons_succ]
      exact ih k x y h

theorem getq_set_ne {α : Type} :
    ∀ (l : List α) (i k : Nat) (x : α), i ≠ k → (l.set i x)[k]? = l[k]? := by
  intro l
  induction l with
  | nil => intro i k x _; rfl
  | cons a t ih =>
    intro i k x hne
    cases i with
    | zero =>
      cases k with
      | zero => exact absurd rfl hne
      | succ m => simp [List.set_cons_zero]
    | succ n =>
      cases k with
      | zero => simp [List.set_cons_succ]
      | succ m =>
        simp only [List.set_cons_succ, List.getElem?_cons_succ]
        exact ih n m x (fun h => hne (by rw [h]))

theorem setq_eq_self {α : Type} :
    ∀ (l : List α) (i : Nat) (y : α), l[i]? = some y → l.set i y = l := by
  intro l
  induction l with
  | nil => intro i y h; simp at h
  | cons a t ih =>
    intro i y h
    cases i with
    | zero =>
      simp only [List.getElem?_cons_zero, Option.some.injEq] at h
      rw [List.set_cons_zero, h]
    | succ k =>
      simp only [List.getElem?_cons_succ] at h
      rw [List.set_cons_succ, ih k y h]

theorem getq_append_length {α : Type} :
    ∀ (l : List α) (x : α), (l ++ [x])[l.length]? = some x := by
  intro l
  induction l with
  | nil => intro x; rfl
  | cons a t ih =>
    intro x
    simp only [List.cons_append, List.length_cons, List.getElem?_cons_succ]
    exact ih x

theorem find_idx_get {α : Type} (p : α → Bool) :
    ∀ (l : List α) (i : Nat), find_idx p l = some i → ∃ x, l[i]? = some x ∧ p x = true := by
  intro l
  induction l with
  | nil => intro i h; simp [find_idx] at h
  | cons a t ih =>
    intro i h
    rw [find_idx] at h
    by_cases hp : p a = true
    · rw [if_pos hp] at h
      injection h with h
      subst h
      exact ⟨a, by simp, hp⟩
    · rw [if_neg hp] at h
      cases hn : find_idx p t with
      | none => rw [hn] at h; simp at h
      | some n =>
        rw [hn] at h
        simp only [Option.map_some', Option.some.injEq] at h
        subst h
        rcases ih n hn with ⟨x, hx, hpx⟩
        exact ⟨x, by simpa using hx, hpx⟩

theorem find_idx_none {α : Type} (p : α → Bool) :
    ∀ (l : List α), find_idx p l = none → ∀ x ∈ l, p x = false := by
  intro l
  induction l with
  | nil => intro _ x hx; simp at hx
  | cons a t ih =>
    intro h x hx
    rw [find_idx] at h
    by_cases hp : p a = true
    · rw [if_pos hp] at h; exact absurd h (by simp)
    · rw [if_neg hp] at h
      have ht : find_idx p t = none := by
        cases hn : find_idx p t with
        | none => rfl
        | some n => rw [hn] at h; simp at h
      cases hx with
      | head => exact Bool.eq_false_iff.mpr hp
      | tail _ hmem => exact ih ht x hmem

theorem find_idx_set_of_true {α : Type} (p : α → Bool) :
    ∀ (l : List α) (i : Nat) (x : α),
      find_idx p l = some i → p x = true → find_idx p (l.set i x) = some i := by
  intro l
  induction l with
  | nil => intro i x h _; simp [find_idx] at h
  | cons a t ih =>
    intro i x h hx
    rw [find_idx] at h
    by_cases hp : p a = true
    · rw [if_pos hp] at h
      injection h with h
      subst h
      rw [List.set_cons_zero, find_idx, if_pos hx]
    · rw [if_neg hp] at h
      cases hn : find_idx p t with
      | none => rw [hn] at h; simp at h
      | some n =>
        rw [hn] at h
        simp only [Option.map_some', Option.some.injEq] at h
        subst h
        rw [List.set_cons_succ, find_idx, if_neg hp, ih n x hn hx]
        rfl

theorem find_idx_append_of_none {α : Type} (p : α → Bool) :
    ∀ (l : List α) (x : α),
      find_idx p l = none → p x = true → find_idx p (l ++ [x]) = some l.length := by
  intro l
  induction l with
  | nil => intro x _ hx; simp [find_idx, hx]
  | cons a t ih =>
    intro x h hx
    rw [find_idx] at h
    by_cases hp : p a = true
    · rw [if_pos hp] at h; simp at h
    · rw [if_neg hp] at h
      have ht : find_idx p t = none := by
        cases hn : find_idx p t with
        | none => rfl
        | some n => rw [hn] at h; simp at h
      show find_idx p (a :: (t ++ [x])) = some (t.length + 1)
      rw [find_idx, if_neg hp, ih x ht hx]
      rfl

theorem countP_set_le {α : Type} (p : α → Bool) :
    ∀ (l : List α) (i : Nat) (x : α),
      (∀ y, l[i]? = some y → p x = true → p y = true) →
      (l.set i x).countP p ≤ l.countP p := by
  intro l
  induction l with
  | nil => intro i x _; simp
  | cons a t ih =>
    intro i x h
    cases i with
    | zero =>
      have ha := h a (by simp)
      rw [List.set_cons_zero]
      cases hx : p x with
      | false => simp [List.countP_cons, hx]
      | true => simp [List.countP_cons, hx, ha hx]
    | succ k =>
      rw [List.set_cons_succ]
      simp only [List.countP_cons]
      have hrec := ih k x (fun y hy => h y (by simpa using hy))
      omega

theorem countP_set_succ_le {α : Type} (p : α → Bool) :
    ∀ (l : List α) (i : Nat) (x : α), (l.set i x).countP p ≤ l.countP p + 1 := by
  intro l
  induction l with
  | nil => intro i x; simp
  | cons a t ih =>
    intro i x
    cases i with
    | zero =>
      rw [List.set_cons_zero]
      cases hx : p x <;> cases ha : p a <;> simp [List.countP_cons, hx, ha] <;> omega
    | succ k =>
      rw [List.set_cons_succ]
      simp only [List.countP_cons]
      have := ih k x
      omega

theorem countP_set_eq {α : Type} (p : α → Bool) :
    ∀ (l : List α) (i : Nat) (x y : α),
      l[i]? = some y → p x = p y → (l.set i x).countP p = l.countP p := by
  intro l
  induction l with
  | nil => intro i x y h _; simp at h
  | cons a t ih =>
    intro i x y h hpq
    cases i with
    | zero =>
      simp only [List.getElem?_cons_zero, Option.some.injEq] at h
      subst h
      rw [List.set_cons_zero]
      simp [List.countP_cons, hpq]
    | succ k =>
      simp only [List.getElem?_cons_succ] at h
      rw [List.set_cons_succ]
      simp only [List.countP_cons]
      rw [ih k x y h hpq]

theorem countP_pos {α : Type} (p : α → Bool) :
    ∀ (l : List α) (i : Nat) (x : α), l[i]? = some x → p x = true → 1 ≤ l.countP p := by
  intro l
  induction l with
  | nil => intro i x h _; simp at h
  | cons a t ih =>
    intro i x h hx
    cases i with
    | zero =>
      simp only [List.getElem?_cons_zero, Option.some.injEq] at h
      subst h
      simp [List.countP_cons, hx]
    | succ k =>
      simp only [List.getElem?_cons_succ] at h
      have := ih k x h hx
      simp only [List.countP_cons]
      omega

theorem any_false_countP {α : Type} (p : α → Bool) :
    ∀ (l : List α), l.any p = false → l.countP p = 0 := by
  intro l
  induction l with
  | nil => intro _; simp
  | cons a t ih =>
    intro h
    simp only [List.any_cons, Bool.or_eq_false_iff] at h
    simp [List.countP_cons, h.1, ih h.2]

theorem map_set {α β : Type} (f : α → β) :
    ∀ (l : List α) (i : Nat) (x : α), (l.set i x).map f = (l.map f).set i (f x) := by
  intro l
  induction l with
  | nil => intro i x; rfl
  | cons a t ih =>
    intro i x
    cases i with
    | zero => rfl
    | succ k =>
      rw [List.set_cons_succ]
      simp [ih k x]

/-! ### The completion-event marker scan -/

theorem resetFirstNonIdle_none_iff :
    ∀ cs : List Characteristic,
      ScannerApp.resetFirstNonIdle cs = none ↔
        cs.all (fun c => c.state == CharacteristicState.NONE) = true := by
  intro cs
  induction cs with
  | nil => simp [ScannerApp.resetFirstNonIdle]
  | cons c rest ih =>
    rw [ScannerApp.resetFirstNonIdle, List.all_cons]
    cases hc : c.state == CharacteristicState.NONE with
    | true =>
      have hb : (c.state != CharacteristicState.NONE) = false := by simp [bne, hc]
      rw [hb]
      simp [ih]
    | false =>
      have hb : (c.state != CharacteristicState.NONE) = true := by simp [bne, hc]
      rw [hb]
      simp [hc]

theorem update_eq_advanceFirstPending :
    ∀ svs : List Service,
      ScannerApp.update_services_and_characteristics svs = advanceFirstPending svs := by
  intro svs
  induction svs with
  | nil => rfl
  | cons sv rest ih =>
    rw [ScannerApp.update_services_and_characteristics, advanceFirstPending]
    cases hst : sv.state == ServiceState.DISCOVERED with
    | false =>
      have hb : (sv.state != ServiceState.DISCOVERED) = true := by simp [bne, hst]
      have hset : sv.isSettled = false := by
        rw [Service.isSettled, hst, Bool.false_and]
      rw [hb, hset, advanceService, hb]
      simp
    | true =>
      have hb : (sv.state != ServiceState.DISCOVERED) = false := by simp [bne, hst]
      rw [hb]
      cases hr : ScannerApp.resetFirstNonIdle sv.characteristics with
      | some cs =>
        have hall : sv.characteristics.all (fun c => c.state == CharacteristicState.NONE) = false := by
          cases h : sv.characteristics.all (fun c => c.state == CharacteristicState.NONE) with
          | true => rw [(resetFirstNonIdle_none_iff sv.characteristics).mpr h] at hr; cases hr
          | false => rfl
        have hset : sv.isSettled = false := by
          rw [Service.isSettled, hst, hall, Bool.true_and]
        rw [hset, advanceService, hb]
        simp [hr]
      | none =>
        have hall := (resetFirstNonIdle_none_iff sv.characteristics).mp hr
        have hset : sv.isSettled = true := by
          rw [Service.isSettled, hst, hall, Bool.true_and]
        rw [hset]
        simp [ih]

/-! ### Claims C1, C2, C9 (discovery bookkeeping) and C8, C10 (loop control) -/

/-- C1 (amended): handling a ProcedureCompleted event that resolves to a device
advances at most one pending marker, but the scan is interleaved, not
service-first: services are walked in insertion order and at each service the
walk first checks the service itself (marking it Discovered if it is not and
stopping) and then that service's characteristics (resetting the first with a
non-Idle command state and stopping) before moving to the next service — so a
non-Idle characteristic of an earlier Discovered service is reset even while a
later Service is still undiscovered.  The device's new service list is exactly
`advanceFirstPending` of the old one, and every other device is untouched. -/
theorem claim_C1 (s : Scanner) (conn di : Nat) (d : Device)
    (hfind : get_device_idx_by_handle s.devices conn = some di)
    (hget : s.devices[di]? = some d) :
    ((ScannerApp.on_procedure_completed s conn).1.devices[di]?).map Device.services =
      some (advanceFirstPending d.services) ∧
    ∀ k, k ≠ di → (ScannerApp.on_procedure_completed s conn).1.devices[k]? = s.devices[k]? := by
  simp only [ScannerApp.on_procedure_completed, hfind, hget]
  constructor
  · rw [getq_set_self s.devices di
      ({ d with services := ScannerApp.update_services_and_characteristics d.services }) d hget]
    simp [update_eq_advanceFirstPending]
  · intro k hk
    exact getq_set_ne s.devices di k _ (Ne.symm hk)

/-- C1 counterexample: on a device whose services are [S1 Discovered holding a
Reading characteristic, S2 Discovering], the completion event resets the
characteristic of S1 to Idle and leaves S2 undiscovered, whereas the claim
says S2 (the first not-Discovered service) is marked Discovered and that no
characteristic command state changes while a Service is still undiscovered. -/
theorem ce_C1 :
    ((ScannerApp.on_procedure_completed
        { devices := [{ address := "AA:BB",
                        handle := some 1,
                        is_connected := true,
                        services := [{ uuid := "1800", handle := 1, state := ServiceState.DISCOVERED,
                                       characteristics := [{ uuid := "2A00", handle := 3, properties := 2,
                                                             state := CharacteristicState.READING }] },
                                     { uuid := "1801", handle := 2, state := ServiceState.DISCOVERING }] }],
          is_ready := true } 1).1.devices.map Device.services) =
      [[{ uuid := "1800", handle := 1, state := ServiceState.DISCOVERED,
          characteristics := [{ uuid := "2A00", handle := 3, properties := 2,
                                state := CharacteristicState.NONE }] },
        { uuid := "1801", handle := 2, state := ServiceState.DISCOVERING }]] := by
  decide

theorem wit_C1 :
    ((ScannerApp.on_procedure_completed wScanner 1).1.devices[0]?).map Device.services =
      some (advanceFirstPending wDevice.services) :=
  (claim_C1 wScanner 1 0 wDevice (by decide) (by decide)).1

/-- C2 (amended): handling a ConnectionOpened event that resolves to a device
sets the connected flag and issues primary-service discovery for the event's
connection, but does **not** clear the device's service list: every Service
(with its Characteristics) recorded before the reconnect survives, and the new
discovery round appends after them. -/
theorem claim_C2 (s : Scanner) (address : String) (conn di : Nat) (d : Device)
    (hfind : get_device_idx_by_address s.devices (strUpper address) = some di)
    (hget : s.devices[di]? = some d) :
    (ScannerApp.on_connection_opened s address conn).1.devices =
      s.devices.set di ({ d with is_connected := true }) ∧
    (ScannerApp.on_connection_opened s address conn).2 = [Command.discoverPrimaryServices conn] ∧
    ((ScannerApp.on_connection_opened s address conn).1.devices[di]?).map Device.services =
      some d.services := by
  have hstep : ScannerApp.on_connection_opened s address conn =
      ({ s with devices := s.devices.set di ({ d with is_connected := true }) },
       [Command.discoverPrimaryServices conn]) := by
    simp only [ScannerApp.on_connection_opened, hfind, hget]
  rw [hstep]
  refine ⟨rfl, rfl, ?_⟩
  rw [getq_set_self s.devices di ({ d with is_connected := true }) d hget]
  rfl

/-- C2 counterexample: a device with a previously recorded Service receives a
ConnectionOpened event; afterwards its service list still holds that Service —
nothing was cleared, contradicting "no Service recorded before the reconnect
survives into the new discovery round". -/
theorem ce_C2 :
    ((ScannerApp.on_connection_opened
        { devices := [{ address := "AA:BB",
                        services := [{ uuid := "1800", handle := 1,
                                       state := ServiceState.DISCOVERED }] }],
          is_ready := true } "AA:BB" 7).1.devices.map Device.services) =
      [[{ uuid := "1800", handle := 1, state := ServiceState.DISCOVERED }]] := by
  decide

theorem wit_C2 :
    ((ScannerApp.on_connection_opened wScanner "AA:BB:CC:DD:EE:FF" 1).1.devices[0]?).map Device.services =
      some wDevice.services :=
  (claim_C2 wScanner "AA:BB:CC:DD:EE:FF" 1 0 wDevice (by decide) (by decide)).2.2

/-- C9: a ServiceDiscovered event appends to the resolved device a Service in
Discovering state whose uuid is the event's UUID bytes reversed and rendered
as upper-case hex, carrying the event's service handle; no command is issued;
and in particular UUID bytes CD AB render as "ABCD". -/
theorem claim_C9 (s : Scanner) (conn : Nat) (uuid : List Nat) (svh di : Nat) (d : Device)
    (hfind : get_device_idx_by_handle s.devices conn = some di)
    (hget : s.devices[di]? = some d) :
    ((ScannerApp.on_service s conn uuid svh).1.devices[di]?).map Device.services =
      some (d.services ++ [{ uuid := bytesToHexUpper uuid.reverse, handle := svh,
                             state := ServiceState.DISCOVERING, characteristics := [] }]) ∧
    (ScannerApp.on_service s conn uuid svh).2 = [] ∧
    bytesToHexUpper (List.reverse [205, 171]) = "ABCD" := by
  have hstep : ScannerApp.on_service s conn uuid svh =
      ({ s with devices := (s.devices.set di
          ({ d with services := d.services ++
              [{ uuid := bytesToHexUpper uuid.reverse, handle := svh }] })) }, []) := by
    simp only [ScannerApp.on_service, hfind, hget]
  rw [hstep]
  refine ⟨?_, rfl, by decide⟩
  rw [getq_set_self s.devices di
    ({ d with services := d.services ++ [{ uuid := bytesToHexUpper uuid.reverse, handle := svh }] }) d hget]
  rfl

theorem wit_C9 :
    ((ScannerApp.on_service wScanner 1 [205, 171] 9).1.devices[0]?).map Device.services =
      some (wDevice.services ++ [{ uuid := bytesToHexUpper (List.reverse [205, 171]), handle := 9,
                                   state := ServiceState.DISCOVERING, characteristics := [] }]) :=
  (claim_C9 wScanner 1 [205, 171] 9 0 wDevice (by decide) (by decide)).1

/-- C8: the watchdog issues at most MAX_RETRY_ATTEMPTS = 3 reboot commands; if
the ready signal is observed during the initial grace wait it exits at once
with no reboot and no stop; if ready is first observed during the wait after
the (k+1)-st reboot it exits having issued exactly k+1 reboots, without
stopping; and it stops the session exactly when neither the grace wait nor any
of the three post-reboot waits observes readiness.  (Exiting is returning: the
functional model makes "never acts again" immediate.) -/
theorem claim_C8 (g : Bool) (w : Nat → Bool) :
    (watchdog g w).1 ≤ MAX_RETRY_ATTEMPTS ∧
    (g = true → watchdog g w = (0, false)) ∧
    ((watchdog g w).2 = true ↔ g = false ∧ w 0 = false ∧ w 1 = false ∧ w 2 = false) ∧
    (g = false → w 0 = true → watchdog g w = (1, false)) ∧
    (g = false → w 0 = false → w 1 = true → watchdog g w = (2, false)) ∧
    (g = false → w 0 = false → w 1 = false → w 2 = true → watchdog g w = (3, false)) := by
  cases g with
  | true => simp [watchdog, MAX_RETRY_ATTEMPTS]
  | false =>
    cases h0 : w 0 <;> cases h1 : w 1 <;> cases h2 : w 2 <;>
      simp [watchdog, MAX_RETRY_ATTEMPTS, watchdogIter, h0, h1, h2]

theorem wit_C8 :
    watchdog false (fun n => n == 1) = (2, false) :=
  (claim_C8 false (fun n => n == 1)).2.2.2.2.1 rfl rfl rfl

/-- C10: before the first Boot event sets the ready flag, the event loop
discards every non-Boot event: a run over any Boot-free event sequence leaves
the scanner in its initial state (no device ever created) and issues no
command. -/
theorem claim_C10 (es : List Event) (h : ∀ e ∈ es, e.is_boot = false) :
    run_loop initialScanner es = (initialScanner, []) := by
  induction es with
  | nil => rfl
  | cons e rest ih =>
    have he : e.is_boot = false := h e (by simp)
    have hr : run_step initialScanner e = (initialScanner, []) := by
      rw [run_step, if_pos]
      rw [he]
      rfl
    rw [run_loop, hr, ih (fun x hx => h x (List.mem_cons_of_mem e hx))]
    rfl

theorem wit_C10 :
    run_loop initialScanner
      [Event.gatt_procedure_completed 1,
       Event.advertisement "AA:BB" [18, 52] 1 0 (-50),
       Event.connection_opened "AA:BB" 1] = (initialScanner, []) :=
  claim_C10 _ (by decide)

/-! ### The single-in-flight-connection invariant (C4) -/

theorem amoif_set_same (s : Scanner) (i : Nat) (d d' : Device)
    (hget : s.devices[i]? = some d) (hsame : in_flight d' = in_flight d)
    (h : at_most_one_in_flight s) :
    at_most_one_in_flight { s with devices := s.devices.set i d' } := by
  unfold at_most_one_in_flight at h ⊢
  rw [countP_set_eq in_flight s.devices i d' d hget hsame]
  exact h

theorem amoif_set_false (s : Scanner) (i : Nat) (d' : Device)
    (hff : in_flight d' = false) (h : at_most_one_in_flight s) :
    at_most_one_in_flight { s with devices := s.devices.set i d' } := by
  unfold at_most_one_in_flight at h ⊢
  refine le_trans (countP_set_le in_flight s.devices i d' ?_) h
  intro y _ hp
  rw [hff] at hp
  cases hp

theorem amoif_append_false (s : Scanner) (d : Device)
    (hff : in_flight d = false) (h : at_most_one_in_flight s) :
    at_most_one_in_flight { s with devices := s.devices ++ [d] } := by
  unfold at_most_one_in_flight at h ⊢
  rw [List.countP_append]
  have h1 : List.countP in_flight [d] = 0 := by
    simp [List.countP_cons, hff]
  omega

theorem step_preserves_amoif (s : Scanner) (op : Op)
    (h : at_most_one_in_flight s) : at_most_one_in_flight (step s op).1 := by
  cases op with
  | event e =>
    simp only [step, run_step]
    by_cases hg : (!s.is_ready && !e.is_boot) = true
    · rw [if_pos hg]; exact h
    · rw [if_neg hg]
      cases e with
      | advertisement a dat f t r =>
        simp only [handle_event, ScannerApp.on_advertisement]
        cases hf : get_device_idx_by_address s.devices (strUpper a) with
        | some i =>
          cases hgd : s.devices[i]? with
          | some d =>
            simp only [hf, hgd]
            exact amoif_set_same s i d _ hgd rfl h
          | none => simp only [hf, hgd]; exact h
        | none =>
          simp only [hf]
          exact amoif_append_false s _ rfl h
      | boot =>
        simp only [handle_event, ScannerApp.on_boot]
        exact h
      | connection_opened a c =>
        simp only [handle_event, ScannerApp.on_connection_opened]
        cases hf : get_device_idx_by_address s.devices (strUpper a) with
        | some i =>
          cases hgd : s.devices[i]? with
          | some d =>
            simp only [hf, hgd]
            refine amoif_set_false s i ({ d with is_connected := true }) ?_ h
            simp [in_flight]
          | none => simp only [hf, hgd]; exact h
        | none => simp only [hf]; exact h
      | connection_closed c =>
        simp only [handle_event, ScannerApp.on_connection_closed]
        cases hf : get_device_idx_by_handle s.devices c with
        | some i =>
          cases hgd : s.devices[i]? with
          | some d =>
            simp only [hf, hgd]
            exact amoif_set_false s i ({ d with is_connected := false, handle := none }) rfl h
          | none => simp only [hf, hgd]; exact h
        | none => simp only [hf]; exact h
      | gatt_service c u sv =>
        simp only [handle_event, ScannerApp.on_service]
        cases hf : get_device_idx_by_handle s.devices c with
        | some i =>
          cases hgd : s.devices[i]? with
          | some d =>
            simp only [hf, hgd]
            exact amoif_set_same s i d _ hgd rfl h
          | none => simp only [hf, hgd]; exact h
        | none => simp only [hf]; exact h
      | gatt_characteristic c u ch pr =>
        simp only [handle_event, ScannerApp.on_characteristic]
        cases hf : get_device_idx_by_handle s.devices c with
        | some i =>
          cases hgd : s.devices[i]? with
          | some d =>
            simp only [hf, hgd]
            exact amoif_set_same s i d _ hgd rfl h
          | none => simp only [hf, hgd]; exact h
        | none => simp only [hf]; exact h
      | gatt_characteristic_value c ch opn v =>
        simp only [handle_event, ScannerApp.on_characteristic_value]
        cases hf : get_device_idx_by_handle s.devices c with
        | some i =>
          cases hgd : s.devices[i]? with
          | some d =>
            simp only [hf, hgd]
            exact amoif_set_same s i d _ hgd rfl h
          | none => simp only [hf, hgd]; exact h
        | none => simp only [hf]; exact h
      | gatt_procedure_completed c =>
        simp only [handle_event, ScannerApp.on_procedure_completed]
        cases hf : get_device_idx_by_handle s.devices c with
        | some i =>
          cases hgd : s.devices[i]? with
          | some d =>
            simp only [hf, hgd]
            exact amoif_set_same s i d _ hgd rfl h
          | none => simp only [hf, hgd]; exact h
        | none => simp only [hf]; exact h
  | connect di rh =>
    simp only [step, ScannerApp.connect_device]
    by_cases hg : s.devices.any (fun d => d.handle.isSome && !d.is_connected) = true
    · rw [if_pos hg]; exact h
    · rw [if_neg hg]
      cases hgd : s.devices[di]? with
      | none => simp only [hgd]; exact h
      | some d =>
        simp only [hgd]
        unfold at_most_one_in_flight at h ⊢
        have h0 : s.devices.countP in_flight = 0 :=
          any_false_countP in_flight s.devices (Bool.eq_false_iff.mpr hg)
        have h1 := countP_set_succ_le in_flight s.devices di ({ d with handle := some rh })
        show List.countP in_flight (s.devices.set di ({ d with handle := some rh })) ≤ 1
        omega
  | disconnect di =>
    simp only [step, ScannerApp.disconnect_device]
    cases hgd : s.devices[di]? with
    | none => simp only [hgd]; exact h
    | some d =>
      simp only [hgd]
      cases hh : d.handle with
      | some x => simp only [hh]; exact h
      | none => simp only [hh]; exact h
  | readChar di i j =>
    simp only [step, ScannerApp.read_from_characteristic]
    cases hgd : s.devices[di]? with
    | none => simp only [hgd]; exact h
    | some d =>
      simp only [hgd]
      by_cases hb : d.is_using_gatt_command = true
      · rw [if_pos hb]; exact h
      · rw [if_neg hb]
        by_cases hc : d.is_connected = true
        · rw [if_pos hc]
          cases hsv : d.services[i]? with
          | none => simp only [hsv]; exact h
          | some sv =>
            simp only [hsv]
            cases hcc : sv.characteristics[j]? with
            | none => simp only [hcc]; exact h
            | some c =>
              simp only [hcc]
              exact amoif_set_same s di d _ hgd rfl h
        · rw [if_neg hc]; exact h
  | writeChar di i j p =>
    simp only [step, ScannerApp.write_to_characteristic]
    cases hgd : s.devices[di]? with
    | none => simp only [hgd]; exact h
    | some d =>
      simp only [hgd]
      by_cases hb : d.is_using_gatt_command = true
      · rw [if_pos hb]; exact h
      · rw [if_neg hb]
        by_cases hc : d.is_connected = true
        · rw [if_pos hc]
          cases hsv : d.services[i]? with
          | none => simp only [hsv]; exact h
          | some sv =>
            simp only [hsv]
            cases hcc : sv.characteristics[j]? with
            | none => simp only [hcc]; exact h
            | some c =>
              simp only [hcc]
              cases hx : hexToBytes p with
              | none => simp only [hx]; exact h
              | some bs =>
                simp only [hx]
                exact amoif_set_same s di d _ hgd rfl h
        · rw [if_neg hc]; exact h
  | subNotify di i j =>
    simp only [step, ScannerApp.subscribe_to_notification]
    cases hgd : s.devices[di]? with
    | none => simp only [hgd]; exact h
    | some d =>
      simp only [hgd]
      by_cases hb : d.is_using_gatt_command = true
      · rw [if_pos hb]; exact h
      · rw [if_neg hb]
        by_cases hc : d.is_connected = true
        · rw [if_pos hc]
          cases hsv : d.services[i]? with
          | none => simp only [hsv]; exact h
          | some sv =>
            simp only [hsv]
            cases hcc : sv.characteristics[j]? with
            | none => simp only [hcc]; exact h
            | some c =>
              simp only [hcc]
              exact amoif_set_same s di d _ hgd rfl h
        · rw [if_neg hc]; exact h
  | subIndicate di i j =>
    simp only [step, ScannerApp.subscribe_to_indication]
    cases hgd : s.devices[di]? with
    | none => simp only [hgd]; exact h
    | some d =>
      simp only [hgd]
      by_cases hb : d.is_using_gatt_command = true
      · rw [if_pos hb]; exact h
      · rw [if_neg hb]
        by_cases hc : d.is_connected = true
        · rw [if_pos hc]
          cases hsv : d.services[i]? with
          | none => simp only [hsv]; exact h
          | some sv =>
            simp only [hsv]
            cases hcc : sv.characteristics[j]? with
            | none => simp only [hcc]; exact h
            | some c =>
              simp only [hcc]
              exact amoif_set_same s di d _ hgd rfl h
        · rw [if_neg hc]; exact h

/-- C4: if any device A in the collection holds a non-null connection handle
while not yet connected, Connect on any device is a no-op (no command issued,
no state changed, so in particular the target's handle stays unset); and the
property "at most one device holds a non-null handle while unconnected" holds
initially and is preserved by every event and every public operation, so it
holds in every reachable state. -/
theorem claim_C4 :
    (∀ (s : Scanner) (di rh : Nat) (A : Device), A ∈ s.devices →
       A.handle.isSome = true → A.is_connected = false →
       ScannerApp.connect_device s di rh = (s, [])) ∧
    (at_most_one_in_flight initialScanner ∧
     ∀ (s : Scanner) (op : Op), at_most_one_in_flight s → at_most_one_in_flight (step s op).1) := by
  refine ⟨?_, ?_, step_preserves_amoif⟩
  · intro s di rh A hmem hh hc
    have hany : s.devices.any (fun d => d.handle.isSome && !d.is_connected) = true := by
      rw [List.any_eq_true]
      refine ⟨A, hmem, ?_⟩
      rw [hh, hc]
      rfl
    simp only [ScannerApp.connect_device]
    rw [if_pos hany]
  · show List.countP in_flight [] ≤ 1
    simp

theorem wit_C4 :
    ScannerApp.connect_device sampleScannerA 0 9 = (sampleScannerA, []) ∧
    at_most_one_in_flight (step sampleScannerA (Op.connect 0 9)).1 :=
  ⟨claim_C4.1 sampleScannerA 0 9 sampleInFlight (by decide) (by decide) (by decide),
   claim_C4.2.2 sampleScannerA (Op.connect 0 9) (by unfold at_most_one_in_flight; decide)⟩

/-! ### The four GATT commands (C5, C3) -/

theorem getChar_set (s : Scanner) (di i j : Nat) (d : Device) (sv : Service) (c c' : Characteristic)
    (hd : s.devices[di]? = some d) (hsv : d.services[i]? = some sv)
    (hc : sv.characteristics[j]? = some c) :
    getChar { s with devices := (s.devices.set di
        ({ d with services := (d.services.set i
            ({ sv with characteristics := sv.characteristics.set j c' })) })) } di i j = some c' := by
  simp only [getChar,
    getq_set_self s.devices di
      ({ d with services := (d.services.set i
          ({ sv with characteristics := sv.characteristics.set j c' })) }) d hd,
    getq_set_self d.services i
      ({ sv with characteristics := sv.characteristics.set j c' }) sv hsv]
  exact getq_set_self sv.characteristics j c' c hc

/-- C5: each of ReadCharacteristic, WriteCharacteristic, SubscribeNotify and
SubscribeIndicate is a silent no-op — no command, no exception (for write the
raised flag is false), no state change — whenever the device is busy or not
connected; and when the device is connected and not busy it issues exactly the
corresponding command by handle and sets the characteristic's command state to
the matching non-Idle value. -/
theorem claim_C5 (s : Scanner) (di i j : Nat) (d : Device) (sv : Service) (c : Characteristic)
    (p : String) (bs : List Nat)
    (hd : s.devices[di]? = some d) (hsv : d.services[i]? = some sv)
    (hc : sv.characteristics[j]? = some c) (hp : hexToBytes p = some bs) :
    ((d.is_using_gatt_command = true ∨ d.is_connected = false) →
      ScannerApp.read_from_characteristic s di i j = (s, []) ∧
      ScannerApp.write_to_characteristic s di i j p = (s, [], false) ∧
      ScannerApp.subscribe_to_notification s di i j = (s, []) ∧
      ScannerApp.subscribe_to_indication s di i j = (s, [])) ∧
    (d.is_using_gatt_command = false → d.is_connected = true →
      (getChar (ScannerApp.read_from_characteristic s di i j).1 di i j =
          some ({ c with state := CharacteristicState.READING }) ∧
        (ScannerApp.read_from_characteristic s di i j).2 =
          [Command.readCharacteristicValue d.handle c.handle]) ∧
      (getChar (ScannerApp.write_to_characteristic s di i j p).1 di i j =
          some ({ c with state := CharacteristicState.WRITING, packet := p }) ∧
        (ScannerApp.write_to_characteristic s di i j p).2 =
          ([Command.writeCharacteristicValue d.handle c.handle bs], false)) ∧
      (getChar (ScannerApp.subscribe_to_notification s di i j).1 di i j =
          some ({ c with state := CharacteristicState.SUBSCRIBING_NOTIFICATION }) ∧
        (ScannerApp.subscribe_to_notification s di i j).2 =
          [Command.setCharacteristicNotification d.handle c.handle 1]) ∧
      (getChar (ScannerApp.subscribe_to_indication s di i j).1 di i j =
          some ({ c with state := CharacteristicState.SUBSCRIBING_INDICATION }) ∧
        (ScannerApp.subscribe_to_indication s di i j).2 =
          [Command.setCharacteristicNotification d.handle c.handle 2])) := by
  constructor
  · intro hpre
    have noop : ∀ r : Scanner × List Command,
        (if d.is_using_gatt_command then (s, []) else if d.is_connected then r else (s, [])) =
          (s, []) := by
      intro r
      rcases hpre with hb | hcn
      · rw [if_pos hb]
      · by_cases hb : d.is_using_gatt_command = true
        · rw [if_pos hb]
        · rw [if_neg hb, if_neg (by simp [hcn])]
    have noop3 : ∀ r : Scanner × List Command × Bool,
        (if d.is_using_gatt_command then (s, ([], false)) else
          if d.is_connected then r else (s, ([], false))) = (s, ([], false)) := by
      intro r
      rcases hpre with hb | hcn
      · rw [if_pos hb]
      · by_cases hb : d.is_using_gatt_command = true
        · rw [if_pos hb]
        · rw [if_neg hb, if_neg (by simp [hcn])]
    refine ⟨?_, ?_, ?_, ?_⟩
    · simp only [ScannerApp.read_from_characteristic, hd]
      exact noop _
    · simp only [ScannerApp.write_to_characteristic, hd]
      exact noop3 _
    · simp only [ScannerApp.subscribe_to_notification, hd]
      exact noop _
    · simp only [ScannerApp.subscribe_to_indication, hd]
      exact noop _
  · intro hb hc2
    have hnb : ¬(d.is_using_gatt_command = true) := by simp [hb]
    have hrstep : ScannerApp.read_from_characteristic s di i j =
        ({ s with devices := (s.devices.set di ({ d with services := (d.services.set i
            ({ sv with characteristics := sv.characteristics.set j ({ c with state := CharacteristicState.READING }) })) })) },
         [Command.readCharacteristicValue d.handle c.handle]) := by
      simp only [ScannerApp.read_from_characteristic, hd, hsv, hc, if_neg hnb, if_pos hc2]
    have hwstep : ScannerApp.write_to_characteristic s di i j p =
        ({ s with devices := (s.devices.set di ({ d with services := (d.services.set i
            ({ sv with characteristics := sv.characteristics.set j ({ c with state := CharacteristicState.WRITING, packet := p }) })) })) },
         [Command.writeCharacteristicValue d.handle c.handle bs], false) := by
      simp only [ScannerApp.write_to_characteristic, hd, hsv, hc, hp, if_neg hnb, if_pos hc2]
    have hnstep : ScannerApp.subscribe_to_notification s di i j =
        ({ s with devices := (s.devices.set di ({ d with services := (d.services.set i
            ({ sv with characteristics := sv.characteristics.set j ({ c with state := CharacteristicState.SUBSCRIBING_NOTIFICATION }) })) })) },
         [Command.setCharacteristicNotification d.handle c.handle 1]) := by
      simp only [ScannerApp.subscribe_to_notification, hd, hsv, hc, if_neg hnb, if_pos hc2]
    have histep : ScannerApp.subscribe_to_indication s di i j =
        ({ s with devices := (s.devices.set di ({ d with services := (d.services.set i
            ({ sv with characteristics := sv.characteristics.set j ({ c with state := CharacteristicState.SUBSCRIBING_INDICATION }) })) })) },
         [Command.setCharacteristicNotification d.handle c.handle 2]) := by
      simp only [ScannerApp.subscribe_to_indication, hd, hsv, hc, if_neg hnb, if_pos hc2]
    refine ⟨⟨?_, ?_⟩, ⟨?_, ?_⟩, ⟨?_, ?_⟩, ⟨?_, ?_⟩⟩
    · rw [hrstep]; exact getChar_set s di i j d sv c _ hd hsv hc
    · rw [hrstep]
    · rw [hwstep]; exact getChar_set s di i j d sv c _ hd hsv hc
    · rw [hwstep]
    · rw [hnstep]; exact getChar_set s di i j d sv c _ hd hsv hc
    · rw [hnstep]
    · rw [histep]; exact getChar_set s di i j d sv c _ hd hsv hc
    · rw [histep]

theorem wit_C5 :
    getChar (ScannerApp.read_from_characteristic wScanner 0 0 0).1 0 0 0 =
      some ({ wChar with state := CharacteristicState.READING }) :=
  (((claim_C5 wScanner 0 0 0 wDevice wService wChar "AB" [171]
      (by decide) (by decide) (by decide) (by decide)).2 (by decide) (by decide)).1).1

theorem getChar_of (s : Scanner) (di i j : Nat) (d : Device) (sv : Service) (c : Characteristic)
    (hd : s.devices[di]? = some d) (hsv : d.services[i]? = some sv)
    (hc : sv.characteristics[j]? = some c) :
    getChar s di i j = some c := by
  simp only [getChar, hd, hsv, hc]

theorem settled_of_not_busy (d : Device) (h : d.is_using_gatt_command = false) :
    ∀ sv ∈ d.services, sv.isSettled = true := by
  simp only [Device.is_using_gatt_command, Bool.or_eq_false_iff] at h
  obtain ⟨h1, h2⟩ := h
  intro sv hsv
  rw [Service.isSettled, Bool.and_eq_true]
  constructor
  · rw [List.any_eq_false] at h1
    have e1 := h1 sv hsv
    simp only [bne_iff_ne, ne_eq, Decidable.not_not] at e1
    simp [e1]
  · rw [List.any_eq_false] at h2
    have e2 := h2 sv hsv
    simp only [List.any_eq_true, not_exists, not_and] at e2
    rw [List.all_eq_true]
    intro c hcm
    have e3 := e2 c hcm
    simp only [bne_iff_ne, ne_eq, Decidable.not_not] at e3
    simp [e3]

theorem all_state_set_false :
    ∀ (cs : List Characteristic) (j : Nat) (c c' : Characteristic),
      cs[j]? = some c → c'.state ≠ CharacteristicState.NONE →
      (cs.set j c').all (fun x => x.state == CharacteristicState.NONE) = false := by
  intro cs
  induction cs with
  | nil => intro j c c' h _; simp at h
  | cons a t ih =>
    intro j c c' h hne
    cases j with
    | zero =>
      rw [List.set_cons_zero, List.all_cons]
      have hb : (c'.state == CharacteristicState.NONE) = false := by
        simp [hne]
      rw [hb, Bool.false_and]
    | succ k =>
      simp only [List.getElem?_cons_succ] at h
      rw [List.set_cons_succ, List.all_cons, ih k c c' h hne, Bool.and_false]

theorem resetFirstNonIdle_set_of_all_none :
    ∀ (cs : List Characteristic) (j : Nat) (c c' : Characteristic),
      (∀ x ∈ cs, x.state = CharacteristicState.NONE) →
      cs[j]? = some c → c'.state ≠ CharacteristicState.NONE →
      ScannerApp.resetFirstNonIdle (cs.set j c') =
        some (cs.set j ({ c' with state := CharacteristicState.NONE })) := by
  intro cs
  induction cs with
  | nil => intro j c c' _ h _; simp at h
  | cons a t ih =>
    intro j c c' hall h hne
    cases j with
    | zero =>
      rw [List.set_cons_zero, List.set_cons_zero, ScannerApp.resetFirstNonIdle]
      rw [if_pos (by simp [bne_iff_ne]; exact hne)]
    | succ k =>
      have ha : a.state = CharacteristicState.NONE := hall a (List.mem_cons_self a t)
      simp only [List.getElem?_cons_succ] at h
      rw [List.set_cons_succ, List.set_cons_succ, ScannerApp.resetFirstNonIdle]
      rw [if_neg (by simp [bne_iff_ne, ha])]
      rw [ih k c c' (fun x hx => hall x (List.mem_cons_of_mem a hx)) h hne]
      rfl

theorem advance_set_settled :
    ∀ (svs : List Service) (i j : Nat) (sv : Service) (c c' : Characteristic),
      (∀ t ∈ svs, t.isSettled = true) →
      svs[i]? = some sv → sv.characteristics[j]? = some c →
      c'.state ≠ CharacteristicState.NONE →
      advanceFirstPending (svs.set i ({ sv with characteristics := sv.characteristics.set j c' })) =
        svs.set i ({ sv with characteristics :=
          sv.characteristics.set j ({ c' with state := CharacteristicState.NONE }) }) := by
  intro svs
  induction svs with
  | nil => intro i j sv c c' _ h _ _; simp at h
  | cons a rest ih =>
    intro i j sv c c' hall hi hj hne
    cases i with
    | zero =>
      simp only [List.getElem?_cons_zero, Option.some.injEq] at hi
      subst hi
      have hsettle := hall a (List.mem_cons_self a rest)
      rw [Service.isSettled, Bool.and_eq_true] at hsettle
      have hstate : a.state = ServiceState.DISCOVERED := by
        have := hsettle.1
        simpa using this
      have hset : ∀ x ∈ a.characteristics, x.state = CharacteristicState.NONE := by
        have := hsettle.2
        rw [List.all_eq_true] at this
        intro x hx
        have := this x hx
        simpa using this
      have hnset : ({ a with characteristics := a.characteristics.set j c' }).isSettled = false := by
        simp only [Service.isSettled, all_state_set_false a.characteristics j c c' hj hne,
          Bool.and_false]
      have key := resetFirstNonIdle_set_of_all_none a.characteristics j c c' hset hj hne
      rw [List.set_cons_zero, List.set_cons_zero, advanceFirstPending]
      rw [if_neg (by rw [hnset]; exact Bool.false_ne_true)]
      rw [advanceService]
      rw [if_neg (by simp [bne_iff_ne, hstate])]
      simp only [key, Option.getD_some]
    | succ k =>
      have ha : a.isSettled = true := hall a (List.mem_cons_self a rest)
      simp only [List.getElem?_cons_succ] at hi
      rw [List.set_cons_succ, List.set_cons_succ, advanceFirstPending, if_pos ha]
      rw [ih k j sv c c' (fun t ht => hall t (List.mem_cons_of_mem a ht)) hi hj hne]

/-- C3: on a connected, non-busy device, WriteCharacteristic with "ABCD" sets
the characteristic's command state to Writing and its stored value to the hex
string "ABCD" (decoding to the bytes AB CD); the next ProcedureCompleted event
for that device (all Services being Discovered) resets the command state to
Idle and leaves the stored value unchanged. -/
theorem claim_C3 (s : Scanner) (di i j conn : Nat) (d : Device) (sv : Service) (c : Characteristic)
    (hfind : get_device_idx_by_handle s.devices conn = some di)
    (hd : s.devices[di]? = some d)
    (hsv : d.services[i]? = some sv)
    (hc : sv.characteristics[j]? = some c)
    (hconn : d.is_connected = true)
    (hbusy : d.is_using_gatt_command = false) :
    getChar (ScannerApp.write_to_characteristic s di i j "ABCD").1 di i j =
      some ({ c with state := CharacteristicState.WRITING, packet := "ABCD" }) ∧
    hexToBytes "ABCD" = some [171, 205] ∧
    getChar (ScannerApp.on_procedure_completed
        (ScannerApp.write_to_characteristic s di i j "ABCD").1 conn).1 di i j =
      some ({ c with state := CharacteristicState.NONE, packet := "ABCD" }) := by
  have hnb : ¬(d.is_using_gatt_command = true) := by simp [hbusy]
  have hab : hexToBytes "ABCD" = some [171, 205] := by decide
  have hwstep : ScannerApp.write_to_characteristic s di i j "ABCD" =
      ({ s with devices := (s.devices.set di ({ d with services := (d.services.set i
          ({ sv with characteristics := sv.characteristics.set j ({ c with state := CharacteristicState.WRITING, packet := "ABCD" }) })) })) },
       [Command.writeCharacteristicValue d.handle c.handle [171, 205]], false) := by
    simp only [ScannerApp.write_to_characteristic, hd, hsv, hc, hab, if_neg hnb, if_pos hconn]
  refine ⟨?_, hab, ?_⟩
  · rw [hwstep]
    exact getChar_set s di i j d sv c _ hd hsv hc
  · rw [hwstep]
    have hfind' : find_idx (fun dd => dd.handle == some conn) s.devices = some di := hfind
    have hpd : (d.handle == some conn) = true := by
      obtain ⟨x, hx, hpx⟩ := find_idx_get (fun dd => dd.handle == some conn) s.devices di hfind'
      rw [hd] at hx
      injection hx with hx
      rw [hx]
      exact hpx
    have hfind1 : get_device_idx_by_handle
        (s.devices.set di ({ d with services := (d.services.set i
          ({ sv with characteristics := sv.characteristics.set j ({ c with state := CharacteristicState.WRITING, packet := "ABCD" }) })) })) conn = some di :=
      find_idx_set_of_true _ s.devices di _ hfind hpd
    have hgd1 : (s.devices.set di ({ d with services := (d.services.set i
        ({ sv with characteristics := sv.characteristics.set j ({ c with state := CharacteristicState.WRITING, packet := "ABCD" }) })) }))[di]? =
        some ({ d with services := (d.services.set i
          ({ sv with characteristics := sv.characteristics.set j ({ c with state := CharacteristicState.WRITING, packet := "ABCD" }) })) }) :=
      getq_set_self s.devices di _ d hd
    have hsettled := settled_of_not_busy d hbusy
    have hadv := advance_set_settled d.services i j sv c
      ({ c with state := CharacteristicState.WRITING, packet := "ABCD" }) hsettled hsv hc (by simp)
    have hpstep : (ScannerApp.on_procedure_completed
        ({ s with devices := (s.devices.set di ({ d with services := (d.services.set i
            ({ sv with characteristics := sv.characteristics.set j ({ c with state := CharacteristicState.WRITING, packet := "ABCD" }) })) })) }) conn).1 =
        { s with devices := ((s.devices.set di ({ d with services := (d.services.set i
            ({ sv with characteristics := sv.characteristics.set j ({ c with state := CharacteristicState.WRITING, packet := "ABCD" }) })) })).set di
          ({ d with services := ScannerApp.update_services_and_characteristics (d.services.set i
            ({ sv with characteristics := sv.characteristics.set j ({ c with state := CharacteristicState.WRITING, packet := "ABCD" }) })) })) } := by
      simp only [ScannerApp.on_procedure_completed, hfind1, hgd1]
    rw [hpstep]
    refine getChar_of _ di i j
      ({ d with services := ScannerApp.update_services_and_characteristics (d.services.set i
        ({ sv with characteristics := sv.characteristics.set j ({ c with state := CharacteristicState.WRITING, packet := "ABCD" }) })) })
      ({ sv with characteristics := sv.characteristics.set j ({ c with state := CharacteristicState.NONE, packet := "ABCD" }) })
      ({ c with state := CharacteristicState.NONE, packet := "ABCD" }) ?_ ?_ ?_
    · exact getq_set_self _ di _ _ hgd1
    · show (ScannerApp.update_services_and_characteristics (d.services.set i
        ({ sv with characteristics := sv.characteristics.set j ({ c with state := CharacteristicState.WRITING, packet := "ABCD" }) })))[i]? = _
      rw [update_eq_advanceFirstPending, hadv]
      exact getq_set_self d.services i _ sv hsv
    · exact getq_set_self sv.characteristics j _ c hc

theorem wit_C3 :
    getChar (ScannerApp.on_procedure_completed
        (ScannerApp.write_to_characteristic wScanner 0 0 0 "ABCD").1 1).1 0 0 0 =
      some ({ wChar with state := CharacteristicState.NONE, packet := "ABCD" }) :=
  (claim_C3 wScanner 0 0 0 1 wDevice wService wChar
    (by decide) (by decide) (by decide) (by decide) (by decide) (by decide)).2.2

/-! ### Characteristic-value events (C6) -/

theorem charsSetPacket_states :
    ∀ (cs : List Characteristic) (h : Nat) (p : String) (cs' : List Characteristic),
      ScannerApp.charsSetPacketByHandle cs h p = some cs' →
      chStates cs' = chStates cs := by
  intro cs
  induction cs with
  | nil => intro h p cs' hcs; simp [ScannerApp.charsSetPacketByHandle] at hcs
  | cons a t ih =>
    intro h p cs' hcs
    rw [ScannerApp.charsSetPacketByHandle] at hcs
    by_cases hh : (a.handle == h) = true
    · rw [if_pos hh] at hcs
      injection hcs with hcs
      subst hcs
      simp [chStates]
    · rw [if_neg hh] at hcs
      cases ht : ScannerApp.charsSetPacketByHandle t h p with
      | none => rw [ht] at hcs; simp at hcs
      | some ts =>
        rw [ht] at hcs
        simp only [Option.map_some', Option.some.injEq] at hcs
        subst hcs
        simp [chStates] at ih ⊢
        exact ih h p ts ht

theorem servicesSetPacket_states :
    ∀ (svs : List Service) (h : Nat) (p : String),
      svStates (ScannerApp.servicesSetPacketByHandle svs h p) = svStates svs := by
  intro svs
  induction svs with
  | nil => intro h p; rfl
  | cons a t ih =>
    intro h p
    rw [ScannerApp.servicesSetPacketByHandle]
    cases hcs : ScannerApp.charsSetPacketByHandle a.characteristics h p with
    | some cs =>
      simp only [svStates, List.map_cons]
      rw [charsSetPacket_states a.characteristics h p cs hcs]
    | none =>
      simp only [svStates, List.map_cons]
      have ht := ih h p
      simp only [svStates] at ht
      rw [ht]

theorem statesOf_set_packet (s : Scanner) (i : Nat) (d : Device) (h : Nat) (p : String)
    (hget : s.devices[i]? = some d) :
    statesOf { s with devices := (s.devices.set i
      ({ d with services := ScannerApp.servicesSetPacketByHandle d.services h p })) } = statesOf s := by
  unfold statesOf
  rw [map_set]
  have hd : devStates ({ d with services := ScannerApp.servicesSetPacketByHandle d.services h p }) =
      devStates d :=
    servicesSetPacket_states d.services h p
  rw [hd]
  apply setq_eq_self
  rw [List.getElem?_map, hget]
  rfl

theorem charsSetPacket_of_find :
    ∀ (cs : List Characteristic) (h : Nat) (p : String) (c : Characteristic),
      charsFindByHandle cs h = some c →
      ∃ cs', ScannerApp.charsSetPacketByHandle cs h p = some cs' ∧
        charsFindByHandle cs' h = some ({ c with packet := p }) := by
  intro cs
  induction cs with
  | nil => intro h p c hf; simp [charsFindByHandle] at hf
  | cons a t ih =>
    intro h p c hf
    rw [charsFindByHandle] at hf
    by_cases hh : (a.handle == h) = true
    · rw [if_pos hh] at hf
      injection hf with hf
      subst hf
      refine ⟨{ a with packet := p } :: t, ?_, ?_⟩
      · rw [ScannerApp.charsSetPacketByHandle, if_pos hh]
      · rw [charsFindByHandle, if_pos hh]
    · rw [if_neg hh] at hf
      obtain ⟨ts, hset, hfind⟩ := ih h p c hf
      refine ⟨a :: ts, ?_, ?_⟩
      · rw [ScannerApp.charsSetPacketByHandle, if_neg hh, hset]
        rfl
      · rw [charsFindByHandle, if_neg hh]
        exact hfind

theorem charsSetPacket_of_find_none :
    ∀ (cs : List Characteristic) (h : Nat) (p : String),
      charsFindByHandle cs h = none → ScannerApp.charsSetPacketByHandle cs h p = none := by
  intro cs
  induction cs with
  | nil => intro h p _; rfl
  | cons a t ih =>
    intro h p hf
    rw [charsFindByHandle] at hf
    by_cases hh : (a.handle == h) = true
    · rw [if_pos hh] at hf; cases hf
    · rw [if_neg hh] at hf
      rw [ScannerApp.charsSetPacketByHandle, if_neg hh, ih h p hf]
      rfl

theorem servicesSetPacket_find :
    ∀ (svs : List Service) (h : Nat) (p : String) (c : Characteristic),
      servicesFindCharByHandle svs h = some c →
      servicesFindCharByHandle (ScannerApp.servicesSetPacketByHandle svs h p) h =
        some ({ c with packet := p }) := by
  intro svs
  induction svs with
  | nil => intro h p c hf; simp [servicesFindCharByHandle] at hf
  | cons a t ih =>
    intro h p c hf
    rw [servicesFindCharByHandle] at hf
    cases hc : charsFindByHandle a.characteristics h with
    | some c0 =>
      rw [hc] at hf
      injection hf with hf
      subst hf
      obtain ⟨cs', hset, hfind'⟩ := charsSetPacket_of_find a.characteristics h p c0 hc
      simp only [ScannerApp.servicesSetPacketByHandle, hset]
      simp only [servicesFindCharByHandle, hfind']
    | none =>
      simp only [hc] at hf
      have hsetn := charsSetPacket_of_find_none a.characteristics h p hc
      simp only [ScannerApp.servicesSetPacketByHandle, hsetn]
      simp only [servicesFindCharByHandle, hc]
      exact ih h p c hf

/-- C6: a CharacteristicValue event issues exactly one confirmation command
(for the event's connection) precisely when the att-opcode is the indication
opcode — the command list depends only on the opcode, never on entity state,
matching its issue before any mutation — and none otherwise; the stored value
of the first characteristic with the event's handle becomes the delivered
payload (in lower-case hex, as bytes.hex renders it); and no characteristic
command state anywhere in the collection is changed. -/
theorem claim_C6 (s : Scanner) (conn charH opcode : Nat) (value : List Nat) :
    ((ScannerApp.on_characteristic_value s conn charH opcode value).2 =
      if opcode == ATT_OPCODE_HANDLE_VALUE_INDICATION
      then [Command.sendCharacteristicConfirmation conn] else []) ∧
    statesOf (ScannerApp.on_characteristic_value s conn charH opcode value).1 = statesOf s ∧
    (∀ di d c, get_device_idx_by_handle s.devices conn = some di → s.devices[di]? = some d →
      d.get_characteristic_by_handle charH = some c →
      ∃ d', (ScannerApp.on_characteristic_value s conn charH opcode value).1.devices[di]? = some d' ∧
        d'.get_characteristic_by_handle charH = some ({ c with packet := bytesToHexLower value })) := by
  refine ⟨?_, ?_, ?_⟩
  · simp only [ScannerApp.on_characteristic_value]
    cases hf : get_device_idx_by_handle s.devices conn with
    | some i =>
      cases hgd : s.devices[i]? with
      | some d => simp [hf, hgd]
      | none => simp [hf, hgd]
    | none => simp [hf]
  · simp only [ScannerApp.on_characteristic_value]
    cases hf : get_device_idx_by_handle s.devices conn with
    | some i =>
      cases hgd : s.devices[i]? with
      | some d =>
        simp only [hf, hgd]
        exact statesOf_set_packet s i d charH (bytesToHexLower value) hgd
      | none => simp [hf, hgd]
    | none => simp [hf]
  · intro di d c hf hgd hfc
    simp only [ScannerApp.on_characteristic_value, hf, hgd]
    refine ⟨_, getq_set_self s.devices di _ d hgd, ?_⟩
    unfold Device.get_characteristic_by_handle at hfc ⊢
    exact servicesSetPacket_find d.services charH (bytesToHexLower value) c hfc

theorem wit_C6 :
    (ScannerApp.on_characteristic_value wScanner 1 3 29 [18, 52]).2 =
      [Command.sendCharacteristicConfirmation 1] := by
  rw [(claim_C6 wScanner 1 3 29 [18, 52]).1]
  rfl

/-! ### Advertisement handling (C7) -/

theorem find_idx_none_countP {α : Type} (p : α → Bool) (l : List α)
    (h : find_idx p l = none) : l.countP p = 0 := by
  rw [List.countP_eq_zero]
  intro a ha
  have := find_idx_none p l h a ha
  simp [this]

/-- C7: with at most one device carrying the address beforehand, processing
two identical advertisement reports leaves exactly one device with that
(upper-cased) address, resolvable in the collection, whose packet,
connectable flag, address type and RSSI equal the event's values; and a
re-advertisement for an already known address never changes the number of
devices. -/
theorem claim_C7 (s : Scanner) (address : String) (data : List Nat) (flags atype : Nat) (r : Int)
    (h1 : countAddr s.devices (strUpper address) ≤ 1) :
    countAddr ((ScannerApp.on_advertisement
        (ScannerApp.on_advertisement s address data flags atype r).1
        address data flags atype r).1).devices (strUpper address) = 1 ∧
    (∃ di d,
      get_device_idx_by_address ((ScannerApp.on_advertisement
          (ScannerApp.on_advertisement s address data flags atype r).1
          address data flags atype r).1).devices (strUpper address) = some di ∧
      ((ScannerApp.on_advertisement
          (ScannerApp.on_advertisement s address data flags atype r).1
          address data flags atype r).1).devices[di]? = some d ∧
      d.address = strUpper address ∧
      d.packet = bytesToHexUpper data ∧
      d.is_connectable = ((flags &&& 1) != 0) ∧
      d.address_type = some atype ∧
      d.rssi = some r) ∧
    ((get_device_idx_by_address s.devices (strUpper address)).isSome = true →
      ((ScannerApp.on_advertisement s address data flags atype r).1).devices.length =
        s.devices.length) := by
  have h1' : List.countP (fun dd : Device => dd.address == strUpper address) s.devices ≤ 1 := h1
  cases hf : get_device_idx_by_address s.devices (strUpper address) with
  | some i =>
    have hf' : find_idx (fun dd : Device => dd.address == strUpper address) s.devices = some i := hf
    obtain ⟨x, hx, hpx⟩ := find_idx_get _ s.devices i hf'
    have hstep1 : ScannerApp.on_advertisement s address data flags atype r =
        ({ s with devices := (s.devices.set i
          (x.on_advertisement (bytesToHexUpper data) flags atype r)) }, []) := by
      simp only [ScannerApp.on_advertisement, hf, hx]
    have hpd1 : ((x.on_advertisement (bytesToHexUpper data) flags atype r).address ==
        strUpper address) = true := hpx
    have hfind2 : get_device_idx_by_address
        (s.devices.set i (x.on_advertisement (bytesToHexUpper data) flags atype r))
        (strUpper address) = some i :=
      find_idx_set_of_true _ s.devices i _ hf' hpd1
    have hx2 : (s.devices.set i (x.on_advertisement (bytesToHexUpper data) flags atype r))[i]? =
        some (x.on_advertisement (bytesToHexUpper data) flags atype r) :=
      getq_set_self s.devices i _ x hx
    have hstep2 : ScannerApp.on_advertisement
        ({ s with devices := (s.devices.set i
          (x.on_advertisement (bytesToHexUpper data) flags atype r)) })
        address data flags atype r =
        ({ s with devices := ((s.devices.set i
            (x.on_advertisement (bytesToHexUpper data) flags atype r)).set i
          ((x.on_advertisement (bytesToHexUpper data) flags atype r).on_advertisement
            (bytesToHexUpper data) flags atype r)) }, []) := by
      simp only [ScannerApp.on_advertisement, hfind2, hx2]
    simp only [hstep1, hstep2]
    refine ⟨?_, ⟨i, _, ?_, getq_set_self _ i _ _ hx2, eq_of_beq hpx, rfl, rfl, rfl, rfl⟩, ?_⟩
    · have e2 := countP_set_eq (fun dd : Device => dd.address == strUpper address)
        (s.devices.set i (x.on_advertisement (bytesToHexUpper data) flags atype r)) i
        ((x.on_advertisement (bytesToHexUpper data) flags atype r).on_advertisement
          (bytesToHexUpper data) flags atype r)
        (x.on_advertisement (bytesToHexUpper data) flags atype r) hx2 rfl
      have e1 := countP_set_eq (fun dd : Device => dd.address == strUpper address)
        s.devices i (x.on_advertisement (bytesToHexUpper data) flags atype r) x hx rfl
      have e0 := countP_pos (fun dd : Device => dd.address == strUpper address) s.devices i x hx hpx
      show List.countP (fun dd : Device => dd.address == strUpper address) _ = 1
      omega
    · exact find_idx_set_of_true _ _ i _ hfind2 hpd1
    · intro _
      simp [List.length_set]
  | none =>
    have hf' : find_idx (fun dd : Device => dd.address == strUpper address) s.devices = none := hf
    have h0 : List.countP (fun dd : Device => dd.address == strUpper address) s.devices = 0 :=
      find_idx_none_countP _ s.devices hf'
    have hstep1 : ScannerApp.on_advertisement s address data flags atype r =
        ({ s with devices := (s.devices ++
          [(({ address := strUpper address } : Device).on_advertisement
            (bytesToHexUpper data) flags atype r)]) }, []) := by
      simp only [ScannerApp.on_advertisement, hf]
    have hpn : ((({ address := strUpper address } : Device).on_advertisement
        (bytesToHexUpper data) flags atype r).address == strUpper address) = true := by
      simp [Device.on_advertisement]
    have hfind2 : get_device_idx_by_address
        (s.devices ++ [(({ address := strUpper address } : Device).on_advertisement
          (bytesToHexUpper data) flags atype r)]) (strUpper address) = some s.devices.length :=
      find_idx_append_of_none _ s.devices _ hf' hpn
    have hx2 : (s.devices ++ [(({ address := strUpper address } : Device).on_advertisement
        (bytesToHexUpper data) flags atype r)])[s.devices.length]? =
        some (({ address := strUpper address } : Device).on_advertisement
          (bytesToHexUpper data) flags atype r) :=
      getq_append_length s.devices _
    have hstep2 : ScannerApp.on_advertisement
        ({ s with devices := (s.devices ++
          [(({ address := strUpper address } : Device).on_advertisement
            (bytesToHexUpper data) flags atype r)]) })
        address data flags atype r =
        ({ s with devices := ((s.devices ++
            [(({ address := strUpper address } : Device).on_advertisement
              (bytesToHexUpper data) flags atype r)]).set s.devices.length
          ((({ address := strUpper address } : Device).on_advertisement
            (bytesToHexUpper data) flags atype r).on_advertisement
            (bytesToHexUpper data) flags atype r)) }, []) := by
      simp only [ScannerApp.on_advertisement, hfind2, hx2]
    simp only [hstep1, hstep2]
    refine ⟨?_, ⟨s.devices.length, _, ?_, getq_set_self _ s.devices.length _ _ hx2,
      rfl, rfl, rfl, rfl, rfl⟩, ?_⟩
    · have e2 := countP_set_eq (fun dd : Device => dd.address == strUpper address)
        (s.devices ++ [(({ address := strUpper address } : Device).on_advertisement
          (bytesToHexUpper data) flags atype r)]) s.devices.length
        ((({ address := strUpper address } : Device).on_advertisement
          (bytesToHexUpper data) flags atype r).on_advertisement (bytesToHexUpper data) flags atype r)
        (({ address := strUpper address } : Device).on_advertisement
          (bytesToHexUpper data) flags atype r) hx2 rfl
      have e1 : List.countP (fun dd : Device => dd.address == strUpper address)
          (s.devices ++ [(({ address := strUpper address } : Device).on_advertisement
            (bytesToHexUpper data) flags atype r)]) =
          List.countP (fun dd : Device => dd.address == strUpper address) s.devices +
          List.countP (fun dd : Device => dd.address == strUpper address)
            [(({ address := strUpper address } : Device).on_advertisement
              (bytesToHexUpper data) flags atype r)] := by
        rw [List.countP_append]
      have e3 : List.countP (fun dd : Device => dd.address == strUpper address)
          [(({ address := strUpper address } : Device).on_advertisement
            (bytesToHexUpper data) flags atype r)] = 1 := by
        simp [List.countP_cons, hpn]
      show List.countP (fun dd : Device => dd.address == strUpper address) _ = 1
      omega
    · exact find_idx_set_of_true _ _ s.devices.length _ hfind2 hpn
    · intro hs
      simp at hs

theorem wit_C7 :
    countAddr ((ScannerApp.on_advertisement
        (ScannerApp.on_advertisement initialScanner "aa:bb" [18, 52] 1 0 (-40)).1
        "aa:bb" [18, 52] 1 0 (-40)).1).devices (strUpper "aa:bb") = 1 :=
  (claim_C7 initialScanner "aa:bb" [18, 52] 1 0 (-40) (by decide)).1
